import Mathlib

/-!
Verification development for the ROI (region of interest) extraction stage of
the `agentorange` repository, a shallow embedding of
`src/backend/agentsrc/extract_roi.py`.

Modelling conventions:
* Python integers are `Int`; image dimensions reported by `img.shape` are `Nat`.
* A Python dict with a fixed key set is a Lean structure; keys that are added
  conditionally (`result["value"]`, `result["error"]`) are `Option` fields,
  `none` meaning the key is absent.
* OpenCV (`cv2`) image operations and the `pytesseract` recognition engine are
  external collaborators: they are passed in as function-valued structures
  (`ImgOps`, `Cv`, `Pytesseract`).  `pytesseract` being importable or not is an
  `Option`; a recognition call that returns normally or raises is `Except`.
  The `cv2` preprocessing calls (resize, cvtColor, fastNlMeansDenoising, CLAHE,
  threshold, morphologyEx) are modelled as total functions: on the valid crops
  reaching them they do not raise, and the only fallible call the source's
  `try` block is there for is the recognition call.
* `cv2.imwrite` debug-file saves are writes to an external sink and are not
  modelled; they read, and never write, the pixel buffers.
* Buffer mutation is made explicit by state passing: the drawing loop of
  `extract_all_rois` threads a `DrawState` holding the source buffer and the
  debug buffer, and each in-place `cv2.rectangle` / `cv2.putText` call is a
  function from the targeted buffer to its new contents.
-/

namespace ExtractRoi

/-- A BGR pixel: three 8-bit channels, modelled as integers. -/
def Pixel : Type := Int × Int × Int

/-- A decoded raster image: height, width and a pixel grid, the concrete model
of a numpy `h × w × 3` array. -/
structure Image where
  h : Nat
  w : Nat
  pix : Nat → Nat → Pixel

/-- Length of the numpy basic slice `a:b` over an axis of length `n`, for
non-negative bounds: indices `i` with `min a n ≤ i < min b n`
(`Nat` subtraction already yields `0` when the range is empty). -/
def npSliceLen (n a b : Nat) : Nat := min b n - min a n

/-- `img[y1:y2, x1:x2]`: numpy basic slicing with non-negative bounds. -/
def imageSlice (img : Image) (y1 y2 x1 x2 : Nat) : Image :=
  { h := npSliceLen img.h y1 y2
    w := npSliceLen img.w x1 x2
    pix := fun i j => img.pix (min y1 img.h + i) (min x1 img.w + j) }

/-- The numpy / OpenCV operations `extract_roi.py` uses on whole images,
abstracted over the image representation `Img`.  `rectangle` and `putText`
are the in-place drawing calls of `cv2` (fixed font, scale and thickness
constants elided), given as functions from the drawn-on buffer to its new
contents; `copy` is `ndarray.copy()`; `shape` returns `(h, w)`. -/
structure ImgOps (Img : Type) where
  shape : Img → Nat × Nat
  slice : Img → Nat → Nat → Nat → Nat → Img
  copy : Img → Img
  rectangle : Img → (Int × Int) → (Int × Int) → (Int × Int × Int) → Img
  putText : Img → String → (Int × Int) → (Int × Int × Int) → Img

/-- The `cv2` calls of the OCR preprocessing block (lines 103-137 of
`extract_roi.py`), each with its constant arguments from the source baked in:
`resize4` is `cv2.resize(·, None, fx=4, fy=4, interpolation=INTER_CUBIC)`,
`cvtGray` is `cv2.cvtColor(·, COLOR_BGR2GRAY)`, `denoise` is
`cv2.fastNlMeansDenoising(·, None, h=10, templateWindowSize=7,
searchWindowSize=21)`, `clahe` is `createCLAHE(2.0, (8,8)).apply`, `otsu` is
`cv2.threshold(·, 0, 255, THRESH_BINARY + THRESH_OTSU)`, and `morphClose` is
`cv2.morphologyEx(·, MORPH_CLOSE, 2×2 rect kernel)`. -/
structure Cv (Img : Type) where
  resize4 : Img → Img
  cvtGray : Img → Img
  denoise : Img → Img
  clahe : Img → Img
  otsu : Img → Img
  morphClose : Img → Img

/-- The recognition engine: `pytesseract.image_to_string(image, lang, config)`.
A normal return is `.ok text`; a raised exception is `.error str_of_e`. -/
structure Pytesseract (Img : Type) where
  image_to_string : Img → String → String → Except String String

/-- One entry of the `ROIS` configuration dict: `{x1, y1, x2, y2, ocr,
ocr_type}`.  The defaults are those of the `roi_config.get` calls. -/
structure RoiConfig where
  x1 : Int
  y1 : Int
  x2 : Int
  y2 : Int
  ocr : Bool := false
  ocr_type : String := "text"
deriving DecidableEq

/-- The result dict built by `extract_single_roi`: seven always-present keys,
plus `value` / `error` keys that are only sometimes added (`none` = absent). -/
structure RoiResult where
  name : String
  x1 : Int
  y1 : Int
  x2 : Int
  y2 : Int
  width : Int
  height : Int
  value : Option String := none
  error : Option String := none
deriving DecidableEq

/-- Python's whitespace test for `str.strip()`:
space, tab, newline, carriage return, vertical tab, form feed. -/
def pyIsSpace (c : Char) : Bool :=
  c = ' ' || c = '\t' || c = '\n' || c = '\r' || c = '\x0b' || c = '\x0c'

/-- Python `str.strip()`: remove leading and trailing whitespace. -/
def pyStrip (s : String) : String :=
  ⟨((s.data.dropWhile pyIsSpace).reverse.dropWhile pyIsSpace).reverse⟩

/-- Lines 68-69 of `extract_roi.py`:
`x1, y1 = max(0, x1), max(0, y1)` and `x2, y2 = min(w, x2), min(h, y2)`. -/
def clampRect (w h x1 y1 x2 y2 : Int) : Int × Int × Int × Int :=
  (max 0 x1, max 0 y1, min w x2, min h y2)

/-- The `config` string of the digit-only recognition call (line 149). -/
def digitsConfig : String := "--psm 7 -c tessedit_char_whitelist=0123456789/"

/-- The `config` string of the full-text recognition call (line 156). -/
def textConfig : String := "--psm 6"

/-- Lines 103-137 of `extract_roi.py`, the OCR preprocessing chain applied to
the cropped region before recognition: 4x cubic upscale, grayscale conversion,
non-local-means denoising, CLAHE contrast enhancement, Otsu binarization, then
a 2×2 morphological close.  (The interleaved `cv2.imwrite` debug saves write
to the external sink and are elided.) -/
def ocrPreprocess {Img : Type} (cv : Cv Img) (roi : Img) : Img :=
  cv.morphClose (cv.otsu (cv.clahe (cv.denoise (cv.cvtGray (cv.resize4 roi)))))

/-- Lines 103-159: preprocess the crop, then dispatch the recognition call on
`ocr_type`, with the `lang` and `config` arguments of the source. -/
def runOcr {Img : Type} (cv : Cv Img) (tess : Pytesseract Img)
    (ocr_type : String) (roi : Img) : Except String String :=
  let thresh := ocrPreprocess cv roi
  if ocr_type = "digits" then
    tess.image_to_string thresh "por" digitsConfig
  else
    tess.image_to_string thresh "por" textConfig

/-- `extract_single_roi(img, name, roi_config)` (lines 46-170): clamp the
configured rectangle to the image bounds, return `None` (here `none`) when it
is degenerate, otherwise crop and, when OCR is requested, run the
preprocessing and recognition, storing the stripped text under `value` on
success and `str(e)` under `error` when the recognition call raises; when OCR
is requested but `pytesseract` failed to import, store the fixed error
marker. -/
def extract_single_roi {Img : Type} (ops : ImgOps Img) (cv : Cv Img)
    (pytesseract : Option (Pytesseract Img)) (img : Img) (name : String)
    (roi_config : RoiConfig) : Option RoiResult :=
  let do_ocr := roi_config.ocr
  let ocr_type := roi_config.ocr_type
  let hw := ops.shape img
  let h := hw.1
  let w := hw.2
  let c := clampRect (w : Int) (h : Int) roi_config.x1 roi_config.y1
    roi_config.x2 roi_config.y2
  let x1 := c.1
  let y1 := c.2.1
  let x2 := c.2.2.1
  let y2 := c.2.2.2
  if x1 ≥ x2 ∨ y1 ≥ y2 then
    none
  else
    let roi_w := x2 - x1
    let roi_h := y2 - y1
    let roi := ops.slice img y1.toNat y2.toNat x1.toNat x2.toNat
    let result : RoiResult :=
      { name := name, x1 := x1, y1 := y1, x2 := x2, y2 := y2,
        width := roi_w, height := roi_h }
    match do_ocr, pytesseract with
    | true, some tess =>
        match runOcr cv tess ocr_type roi with
        | .ok text => some { result with value := some (pyStrip text) }
        | .error e => some { result with error := some e }
    | true, none =>
        some { result with error := some "pytesseract not installed" }
    | false, _ => some result

/-- The module-level `ROIS` configuration dict of `extract_roi.py`
(lines 22-40), as an association list in declaration order. -/
def ROIS : List (String × RoiConfig) :=
  [("mana", { x1 := 1227, y1 := 414, x2 := 1285, y2 := 463,
              ocr := true, ocr_type := "text" })]

/-- The state of the two pixel buffers of `extract_all_rois`: the loaded
source image `img` and the `debug_img` copy the annotations are drawn on. -/
structure DrawState (Img : Type) where
  img : Img
  debugImg : Img

/-- The `colors` list of `extract_all_rois` (lines 194-201). -/
def colors : List (Int × Int × Int) :=
  [(0, 255, 0), (255, 0, 0), (0, 0, 255),
   (255, 255, 0), (255, 0, 255), (0, 255, 255)]

/-- The `for idx, (name, roi_config) in enumerate(ROIS.items())` loop of
`extract_all_rois` (lines 205-219): extract each region; when a result is
produced, record it under its name and draw its rectangle and label on the
debug buffer.  Returns the final buffer state and the `results` dict (as an
association list in insertion order). -/
def roiLoop {Img : Type} (ops : ImgOps Img) (cv : Cv Img)
    (pytesseract : Option (Pytesseract Img)) :
    List (String × RoiConfig) → Nat → DrawState Img →
    List (String × RoiResult) → DrawState Img × List (String × RoiResult)
  | [], _, st, results => (st, results)
  | (name, roi_config) :: rest, idx, st, results =>
    match extract_single_roi ops cv pytesseract st.img name roi_config with
    | some r =>
        let color := colors.getD (idx % colors.length) (0, 0, 0)
        let d1 := ops.rectangle st.debugImg (r.x1, r.y1) (r.x2, r.y2) color
        let label := name ++ ": " ++ r.value.getD "?"
        let d2 := ops.putText d1 label (r.x1, r.y1 - 10) color
        roiLoop ops cv pytesseract rest (idx + 1) { st with debugImg := d2 }
          (results ++ [(name, r)])
    | none => roiLoop ops cv pytesseract rest (idx + 1) st results

/-- The dict returned by `extract_all_rois` (lines 226-230): keys
`image_size` (itself `{"width": w, "height": h}`), `debug_image` and
`rois`. -/
structure RetDict where
  image_size : Nat × Nat
  debug_image : String
  rois : List (String × RoiResult)
deriving DecidableEq

/-- The body of `extract_all_rois` after a successful `cv2.imread`
(lines 188-230), with the configuration dict a parameter and the final buffer
state returned alongside the result dict.  The `cv2.imwrite` of the debug
image is a write to the external sink. -/
def extract_all_rois_loaded {Img : Type} (ops : ImgOps Img) (cv : Cv Img)
    (pytesseract : Option (Pytesseract Img)) (rois : List (String × RoiConfig))
    (img : Img) : RetDict × DrawState Img :=
  let hw := ops.shape img
  let h := hw.1
  let w := hw.2
  let debug_img := ops.copy img
  let out := roiLoop ops cv pytesseract rois 0
    { img := img, debugImg := debug_img } []
  ({ image_size := (w, h), debug_image := "roi_debug.png", rois := out.2 },
   out.1)

/-- `extract_all_rois(image_path)` (lines 172-230): `cv2.imread` yielding
`None` (here the `img?` argument being `none`) raises
`ValueError(f"Failed to load image: ...")`; otherwise the loaded image is
processed.  The raise is `Except.error`, path elided from the message. -/
def extract_all_rois {Img : Type} (ops : ImgOps Img) (cv : Cv Img)
    (pytesseract : Option (Pytesseract Img)) (rois : List (String × RoiConfig))
    (img? : Option Img) : Except String (RetDict × DrawState Img) :=
  match img? with
  | none => .error "Failed to load image"
  | some img => .ok (extract_all_rois_loaded ops cv pytesseract rois img)

/-- A Python value as serialized into the JSON output: ints, strings and
dicts (association lists in insertion order). -/
inductive PyVal
  | int (i : Int)
  | str (s : String)
  | dict (kvs : List (String × PyVal))

/-- The `result` dict of `extract_single_roi` as a key/value list: the seven
keys of lines 82-90 in order, then `value` and/or `error` when present. -/
def RoiResult.toDict (r : RoiResult) : PyVal :=
  .dict ([("name", .str r.name), ("x1", .int r.x1), ("y1", .int r.y1),
          ("x2", .int r.x2), ("y2", .int r.y2), ("width", .int r.width),
          ("height", .int r.height)]
    ++ (match r.value with | some v => [("value", .str v)] | none => [])
    ++ (match r.error with | some e => [("error", .str e)] | none => []))

/-- The return dict of `extract_all_rois` (lines 226-230) as a key/value
list. -/
def RetDict.toDict (ret : RetDict) : PyVal :=
  .dict [("image_size", .dict [("width", .int ret.image_size.1),
                               ("height", .int ret.image_size.2)]),
         ("debug_image", .str ret.debug_image),
         ("rois", .dict (ret.rois.map (fun p => (p.1, p.2.toDict))))]

/-- The top-level keys of a `PyVal` dict (empty for non-dicts). -/
def PyVal.topKeys : PyVal → List String
  | .dict kvs => kvs.map Prod.fst
  | _ => []

/-- The concrete numpy operations on `Image`: `shape`, basic slicing and
`ndarray.copy()` (identity on pixel values; the buffers are tracked by the
state passing, not by aliasing).  The pixel-level renderers of
`cv2.rectangle` and `cv2.putText` are supplied as parameters: their rendering
semantics is external to this stage. -/
def imageOps
    (rect : Image → (Int × Int) → (Int × Int) → (Int × Int × Int) → Image)
    (txt : Image → String → (Int × Int) → (Int × Int × Int) → Image) :
    ImgOps Image :=
  { shape := fun img => (img.h, img.w)
    slice := imageSlice
    copy := id
    rectangle := rect
    putText := txt }

/-- Tags for the image-transforming calls that can occur in the pipeline:
the six preprocessing calls of `extract_roi.py`, the crop, and the two
operations the spec's OCRPreprocessor section names that have no counterpart
in the code (color-band segmentation and foreground masking). -/
inductive CvStep
  | sliceStep
  | resize4
  | cvtGray
  | denoise
  | clahe
  | otsu
  | morphClose
  | colorMask
  | maskApply
deriving DecidableEq

/-- Instrumented image representation: an image is the list of operations
that produced it.  Each preprocessing call appends its tag. -/
def cvTrace : Cv (List CvStep) :=
  { resize4 := fun t => t ++ [.resize4]
    cvtGray := fun t => t ++ [.cvtGray]
    denoise := fun t => t ++ [.denoise]
    clahe := fun t => t ++ [.clahe]
    otsu := fun t => t ++ [.otsu]
    morphClose := fun t => t ++ [.morphClose] }

/-- Instrumented whole-image operations: a 1×1 shape (so any rectangle
containing it is valid), the crop appending its tag, drawing a no-op. -/
def traceOps : ImgOps (List CvStep) :=
  { shape := fun _ => (1, 1)
    slice := fun t _ _ _ _ => t ++ [.sliceStep]
    copy := id
    rectangle := fun t _ _ _ => t
    putText := fun t _ _ _ => t }

/-- A printable tag per step, to let a recognition oracle report the
provenance trace of the image it was handed. -/
def CvStep.tag : CvStep → String
  | .sliceStep => "slice"
  | .resize4 => "resize4"
  | .cvtGray => "cvtGray"
  | .denoise => "denoise"
  | .clahe => "clahe"
  | .otsu => "otsu"
  | .morphClose => "morphClose"
  | .colorMask => "colorMask"
  | .maskApply => "maskApply"

/-- Render a provenance trace as a comma-separated string. -/
def encodeSteps (t : List CvStep) : String :=
  String.intercalate "," (t.map CvStep.tag)

/-- Modelled from the spec: the operations section 4.8 (OCRPreprocessor)
says are applied to a cropped region — ColorMaskSegmenter with the
near-white/gray band (saturation ≤ 40, value ≥ 180), masking the crop to
foreground-only, conversion to single-channel intensity, and automatic
histogram-based (Otsu-style) binarization.  Declared only to compare the
spec's claimed pipeline shape with the code's `ocrPreprocess`. -/
structure SpecCv (Img : Type) where
  colorMaskSegment : Img → Img
  maskToForeground : Img → Img
  toIntensity : Img → Img
  otsuBin : Img → Img

/-- Modelled from the spec: section 4.8's preprocessing chain, in the order
the spec states it. -/
def specOcrPreprocess {Img : Type} (s : SpecCv Img) (roi : Img) : Img :=
  s.otsuBin (s.toIntensity (s.maskToForeground (s.colorMaskSegment roi)))

/-- Instrumented spec-side operations, appending their tags. -/
def specCvTrace : SpecCv (List CvStep) :=
  { colorMaskSegment := fun t => t ++ [.colorMask]
    maskToForeground := fun t => t ++ [.maskApply]
    toIntensity := fun t => t ++ [.cvtGray]
    otsuBin := fun t => t ++ [.otsu] }

/-! Concrete fixtures used to evaluate the embedding on closed inputs. -/

/-- A 100×50 all-black test image. -/
def testImage : Image := { h := 50, w := 100, pix := fun _ _ => (0, 0, 0) }

/-- A 1920×1080 all-black test image, large enough that the `mana` region of
the source's `ROIS` dict is fully inside it. -/
def bigImage : Image := { h := 1080, w := 1920, pix := fun _ _ => (0, 0, 0) }

/-- Concrete whole-image operations: drawing leaves the buffer unchanged
(the drawn pixels are irrelevant to every property below). -/
def idOps : ImgOps Image := imageOps (fun d _ _ _ => d) (fun d _ _ _ => d)

/-- Concrete preprocessing operations: each call is the identity on pixels. -/
def idCv : Cv Image :=
  { resize4 := id, cvtGray := id, denoise := id, clahe := id,
    otsu := id, morphClose := id }

/-- A recognition engine that always returns the same text. -/
def constTess (s : String) : Pytesseract Image :=
  { image_to_string := fun _ _ _ => .ok s }

/-- A recognition engine whose call always raises. -/
def failTess (msg : String) : Pytesseract Image :=
  { image_to_string := fun _ _ _ => .error msg }

/-- A recognition engine over traces that reports the provenance of the
image it is handed. -/
def echoTess : Pytesseract (List CvStep) :=
  { image_to_string := fun im _ _ => .ok (encodeSteps im) }

/-! Helper lemmas about the extraction loop. -/

/-- The loop never touches the source buffer: the `img` component of the
final state is that of the initial state. -/
theorem roiLoop_img {Img : Type} (ops : ImgOps Img) (cv : Cv Img)
    (tess : Option (Pytesseract Img)) (rois : List (String × RoiConfig)) :
    ∀ (idx : Nat) (st : DrawState Img) (results : List (String × RoiResult)),
      (roiLoop ops cv tess rois idx st results).1.img = st.img := by
  induction rois with
  | nil => intro idx st results; rfl
  | cons p rest ih =>
    intro idx st results
    obtain ⟨name, cfg⟩ := p
    simp only [roiLoop]
    cases extract_single_roi ops cv tess st.img name cfg with
    | some r => exact ih _ _ _
    | none => exact ih _ _ _

/-- The `results` dict the loop builds: each region contributes its own
`extract_single_roi` outcome (on the initial source buffer), regions whose
extraction returns `None` are skipped, and order is the declaration order. -/
theorem roiLoop_results {Img : Type} (ops : ImgOps Img) (cv : Cv Img)
    (tess : Option (Pytesseract Img)) (rois : List (String × RoiConfig)) :
    ∀ (idx : Nat) (st : DrawState Img) (results : List (String × RoiResult)),
      (roiLoop ops cv tess rois idx st results).2 =
        results ++ rois.filterMap (fun p =>
          (extract_single_roi ops cv tess st.img p.1 p.2).map
            (fun r => (p.1, r))) := by
  induction rois with
  | nil => intro idx st results; simp [roiLoop]
  | cons p rest ih =>
    intro idx st results
    obtain ⟨name, cfg⟩ := p
    simp only [roiLoop, List.filterMap_cons]
    cases extract_single_roi ops cv tess st.img name cfg with
    | some r => rw [ih]; simp
    | none => rw [ih]; simp

/-- Looking a key up in a filter-mapped region list when the key occurs
nowhere in the configuration. -/
theorem lookup_filterMap_of_not_mem
    (g : String × RoiConfig → Option RoiResult) (name : String) :
    ∀ rois : List (String × RoiConfig), name ∉ rois.map Prod.fst →
      (rois.filterMap (fun p => (g p).map (fun r => (p.1, r)))).lookup
        name = none := by
  intro rois
  induction rois with
  | nil => intro _; rfl
  | cons p rest ih =>
    intro hnm
    obtain ⟨n0, c0⟩ := p
    simp only [List.map_cons, List.mem_cons] at hnm
    push_neg at hnm
    simp only [List.filterMap_cons]
    cases g (n0, c0) with
    | none => exact ih hnm.2
    | some r =>
      have hb : (name == n0) = false := beq_eq_false_iff_ne.mpr hnm.1
      simp only [Option.map_some, List.lookup, hb]
      exact ih hnm.2

/-- Looking a configured region up in the filter-mapped region list: with
unique names, the entry for `name` is exactly `g (name, cfg)` (absent when
that is `none`). -/
theorem lookup_filterMap_eq
    (g : String × RoiConfig → Option RoiResult) (name : String)
    (cfg : RoiConfig) :
    ∀ rois : List (String × RoiConfig), (rois.map Prod.fst).Nodup →
      (name, cfg) ∈ rois →
      (rois.filterMap (fun p => (g p).map (fun r => (p.1, r)))).lookup
        name = g (name, cfg) := by
  intro rois
  induction rois with
  | nil => intro _ hmem; cases hmem
  | cons p rest ih =>
    intro hnd hmem
    obtain ⟨n0, c0⟩ := p
    simp only [List.map_cons, List.nodup_cons] at hnd
    rcases List.mem_cons.mp hmem with heq | hmem'
    · obtain ⟨rfl, rfl⟩ := Prod.mk.injEq .. ▸ heq
      simp only [List.filterMap_cons]
      cases hg : g (name, cfg) with
      | none =>
        simpa using lookup_filterMap_of_not_mem g name rest hnd.1
      | some r =>
        simp [List.lookup]
    · have hne : name ≠ n0 := by
        rintro rfl
        exact hnd.1 (List.mem_map.mpr ⟨(name, cfg), hmem', rfl⟩)
      simp only [List.filterMap_cons]
      cases g (n0, c0) with
      | none => exact ih hnd.2 hmem'
      | some r =>
        have hb : (name == n0) = false := beq_eq_false_iff_ne.mpr hne
        simp only [Option.map_some, List.lookup, hb]
        exact ih hnd.2 hmem'

/-- On a rectangle that is non-degenerate after clamping,
`extract_single_roi` reduces to the crop-and-recognize expression of its
body, with the clamped coordinates substituted in. -/
theorem extract_single_roi_valid {Img : Type} (ops : ImgOps Img) (cv : Cv Img)
    (tess : Option (Pytesseract Img)) (img : Img) (name : String)
    (cfg : RoiConfig) (cx1 cy1 cx2 cy2 : Int)
    (hc : clampRect ((ops.shape img).2 : Int) ((ops.shape img).1 : Int)
            cfg.x1 cfg.y1 cfg.x2 cfg.y2 = (cx1, cy1, cx2, cy2))
    (hx : cx1 < cx2) (hy : cy1 < cy2) :
    extract_single_roi ops cv tess img name cfg =
      (let roi := ops.slice img cy1.toNat cy2.toNat cx1.toNat cx2.toNat
       let base : RoiResult :=
         { name := name, x1 := cx1, y1 := cy1, x2 := cx2, y2 := cy2,
           width := cx2 - cx1, height := cy2 - cy1 }
       match cfg.ocr, tess with
       | true, some t =>
           match runOcr cv t cfg.ocr_type roi with
           | .ok text => some { base with value := some (pyStrip text) }
           | .error e => some { base with error := some e }
       | true, none =>
           some { base with error := some "pytesseract not installed" }
       | false, _ => some base) := by
  simp only [extract_single_roi, hc]
  rw [if_neg (by omega)]

/-- Valid rectangle, OCR off: the bare result dict is returned. -/
theorem extract_single_roi_no_ocr {Img : Type} (ops : ImgOps Img)
    (cv : Cv Img) (tess : Option (Pytesseract Img)) (img : Img)
    (name : String) (cfg : RoiConfig) (cx1 cy1 cx2 cy2 : Int)
    (hc : clampRect ((ops.shape img).2 : Int) ((ops.shape img).1 : Int)
            cfg.x1 cfg.y1 cfg.x2 cfg.y2 = (cx1, cy1, cx2, cy2))
    (hx : cx1 < cx2) (hy : cy1 < cy2) (hocr : cfg.ocr = false) :
    extract_single_roi ops cv tess img name cfg =
      some { name := name, x1 := cx1, y1 := cy1, x2 := cx2, y2 := cy2,
             width := cx2 - cx1, height := cy2 - cy1 } := by
  rw [extract_single_roi_valid ops cv tess img name cfg cx1 cy1 cx2 cy2
    hc hx hy]
  simp only [hocr]

/-- Valid rectangle, OCR on, engine missing: the fixed error marker. -/
theorem extract_single_roi_no_tess {Img : Type} (ops : ImgOps Img)
    (cv : Cv Img) (img : Img) (name : String) (cfg : RoiConfig)
    (cx1 cy1 cx2 cy2 : Int)
    (hc : clampRect ((ops.shape img).2 : Int) ((ops.shape img).1 : Int)
            cfg.x1 cfg.y1 cfg.x2 cfg.y2 = (cx1, cy1, cx2, cy2))
    (hx : cx1 < cx2) (hy : cy1 < cy2) (hocr : cfg.ocr = true) :
    extract_single_roi ops cv none img name cfg =
      some { name := name, x1 := cx1, y1 := cy1, x2 := cx2, y2 := cy2,
             width := cx2 - cx1, height := cy2 - cy1,
             error := some "pytesseract not installed" } := by
  rw [extract_single_roi_valid ops cv none img name cfg cx1 cy1 cx2 cy2
    hc hx hy]
  simp only [hocr]

/-- Valid rectangle, OCR on, recognition returns: the stripped text is the
stored value. -/
theorem extract_single_roi_ocr_ok {Img : Type} (ops : ImgOps Img)
    (cv : Cv Img) (t : Pytesseract Img) (img : Img) (name : String)
    (cfg : RoiConfig) (cx1 cy1 cx2 cy2 : Int) (text : String)
    (hc : clampRect ((ops.shape img).2 : Int) ((ops.shape img).1 : Int)
            cfg.x1 cfg.y1 cfg.x2 cfg.y2 = (cx1, cy1, cx2, cy2))
    (hx : cx1 < cx2) (hy : cy1 < cy2) (hocr : cfg.ocr = true)
    (hoc : runOcr cv t cfg.ocr_type
        (ops.slice img cy1.toNat cy2.toNat cx1.toNat cx2.toNat) = .ok text) :
    extract_single_roi ops cv (some t) img name cfg =
      some { name := name, x1 := cx1, y1 := cy1, x2 := cx2, y2 := cy2,
             width := cx2 - cx1, height := cy2 - cy1,
             value := some (pyStrip text) } := by
  rw [extract_single_roi_valid ops cv (some t) img name cfg cx1 cy1 cx2 cy2
    hc hx hy]
  simp only [hocr, hoc]

/-- Valid rectangle, OCR on, recognition raises: `str(e)` is the stored
error. -/
theorem extract_single_roi_ocr_err {Img : Type} (ops : ImgOps Img)
    (cv : Cv Img) (t : Pytesseract Img) (img : Img) (name : String)
    (cfg : RoiConfig) (cx1 cy1 cx2 cy2 : Int) (msg : String)
    (hc : clampRect ((ops.shape img).2 : Int) ((ops.shape img).1 : Int)
            cfg.x1 cfg.y1 cfg.x2 cfg.y2 = (cx1, cy1, cx2, cy2))
    (hx : cx1 < cx2) (hy : cy1 < cy2) (hocr : cfg.ocr = true)
    (hoc : runOcr cv t cfg.ocr_type
        (ops.slice img cy1.toNat cy2.toNat cx1.toNat cx2.toNat)
        = .error msg) :
    extract_single_roi ops cv (some t) img name cfg =
      some { name := name, x1 := cx1, y1 := cy1, x2 := cx2, y2 := cy2,
             width := cx2 - cx1, height := cy2 - cy1,
             error := some msg } := by
  rw [extract_single_roi_valid ops cv (some t) img name cfg cx1 cy1 cx2 cy2
    hc hx hy]
  simp only [hocr, hoc]

/-- On a rectangle that is degenerate after clamping, `extract_single_roi`
returns `None`. -/
theorem extract_single_roi_degenerate {Img : Type} (ops : ImgOps Img)
    (cv : Cv Img) (tess : Option (Pytesseract Img)) (img : Img)
    (name : String) (cfg : RoiConfig) (cx1 cy1 cx2 cy2 : Int)
    (hc : clampRect ((ops.shape img).2 : Int) ((ops.shape img).1 : Int)
            cfg.x1 cfg.y1 cfg.x2 cfg.y2 = (cx1, cy1, cx2, cy2))
    (hdeg : cx1 ≥ cx2 ∨ cy1 ≥ cy2) :
    extract_single_roi ops cv tess img name cfg = none := by
  simp only [extract_single_roi, hc]
  rw [if_pos hdeg]

/-- The numeric fields of any result `extract_single_roi` actually returns:
the reported coordinates are the clamped ones, the reported width and height
are their differences, and the clamped rectangle passed the
non-degeneracy guard. -/
theorem extract_single_roi_some_fields {Img : Type} (ops : ImgOps Img)
    (cv : Cv Img) (tess : Option (Pytesseract Img)) (img : Img)
    (name : String) (cfg : RoiConfig) (r : RoiResult)
    (hr : extract_single_roi ops cv tess img name cfg = some r) :
    r.x1 = max 0 cfg.x1 ∧ r.y1 = max 0 cfg.y1 ∧
    r.x2 = min ((ops.shape img).2 : Int) cfg.x2 ∧
    r.y2 = min ((ops.shape img).1 : Int) cfg.y2 ∧
    r.width = r.x2 - r.x1 ∧ r.height = r.y2 - r.y1 ∧
    r.x1 < r.x2 ∧ r.y1 < r.y2 := by
  simp only [extract_single_roi, clampRect] at hr
  split at hr
  · cases hr
  · split at hr
    case _ t =>
      split at hr <;>
        (simp only [Option.some.injEq] at hr; subst hr;
         refine ⟨rfl, rfl, rfl, rfl, rfl, rfl, ?_, ?_⟩ <;> dsimp only <;> omega)
    case _ =>
      simp only [Option.some.injEq] at hr; subst hr
      refine ⟨rfl, rfl, rfl, rfl, rfl, rfl, ?_, ?_⟩ <;> dsimp only <;> omega
    case _ =>
      simp only [Option.some.injEq] at hr; subst hr
      refine ⟨rfl, rfl, rfl, rfl, rfl, rfl, ?_, ?_⟩ <;> dsimp only <;> omega

/-- C9: coordinate clamping is idempotent: for a rectangle already within
image bounds (`0 ≤ x1`, `0 ≤ y1`, `x2 ≤ w`, `y2 ≤ h`) the clamping step of
lines 68-69 leaves all four coordinates unchanged, and clamping twice equals
clamping once for any rectangle. -/
theorem clampRect_idempotent (w h x1 y1 x2 y2 : Int) :
    (0 ≤ x1 → 0 ≤ y1 → x2 ≤ w → y2 ≤ h →
      clampRect w h x1 y1 x2 y2 = (x1, y1, x2, y2)) ∧
    clampRect w h (clampRect w h x1 y1 x2 y2).1
      (clampRect w h x1 y1 x2 y2).2.1 (clampRect w h x1 y1 x2 y2).2.2.1
      (clampRect w h x1 y1 x2 y2).2.2.2 = clampRect w h x1 y1 x2 y2 := by
  constructor
  · intro h1 h2 h3 h4
    simp only [clampRect, Prod.mk.injEq]
    omega
  · simp only [clampRect, Prod.mk.injEq]
    omega

/-- C9 witness: the in-bounds rectangle (3,4)-(90,40) in a 100×50 image is
left unchanged by clamping. -/
theorem clampRect_idempotent_witness :
    clampRect 100 50 3 4 90 40 = (3, 4, 90, 40) :=
  (clampRect_idempotent 100 50 3 4 90 40).1 (by decide) (by decide)
    (by decide) (by decide)

/-- C1: for a region whose clamped rectangle `(cx1, cy1, cx2, cy2)` satisfies
`0 ≤ cx1 < cx2 ≤ w` and `0 ≤ cy1 < cy2 ≤ h`, `extract_single_roi` returns a
result whose reported `width` and `height` fields are exactly
`(cx2 - cx1, cy2 - cy1)`, and the crop it extracts — the numpy slice
`img[cy1:cy2, cx1:cx2]` — has exactly those dimensions. -/
theorem extract_single_roi_valid_dims
    (rect : Image → (Int × Int) → (Int × Int) → (Int × Int × Int) → Image)
    (txt : Image → String → (Int × Int) → (Int × Int × Int) → Image)
    (cv : Cv Image) (tess : Option (Pytesseract Image)) (img : Image)
    (name : String) (cfg : RoiConfig) (cx1 cy1 cx2 cy2 : Int)
    (hc : clampRect (img.w : Int) (img.h : Int) cfg.x1 cfg.y1 cfg.x2 cfg.y2
            = (cx1, cy1, cx2, cy2))
    (hx1 : 0 ≤ cx1) (hx : cx1 < cx2) (hxw : cx2 ≤ (img.w : Int))
    (hy1 : 0 ≤ cy1) (hy : cy1 < cy2) (hyh : cy2 ≤ (img.h : Int)) :
    ∃ r, extract_single_roi (imageOps rect txt) cv tess img name cfg = some r
      ∧ r.width = cx2 - cx1 ∧ r.height = cy2 - cy1
      ∧ (imageSlice img cy1.toNat cy2.toNat cx1.toNat cx2.toNat).w
          = (cx2 - cx1).toNat
      ∧ (imageSlice img cy1.toNat cy2.toNat cx1.toNat cx2.toNat).h
          = (cy2 - cy1).toNat := by
  have hw' : (imageSlice img cy1.toNat cy2.toNat cx1.toNat cx2.toNat).w
      = (cx2 - cx1).toNat := by
    simp only [imageSlice, npSliceLen]
    omega
  have hh' : (imageSlice img cy1.toNat cy2.toNat cx1.toNat cx2.toNat).h
      = (cy2 - cy1).toNat := by
    simp only [imageSlice, npSliceLen]
    omega
  cases hocr : cfg.ocr with
  | false =>
    rw [extract_single_roi_no_ocr (imageOps rect txt) cv tess img name cfg
      cx1 cy1 cx2 cy2 hc hx hy hocr]
    exact ⟨_, rfl, rfl, rfl, hw', hh'⟩
  | true =>
    cases tess with
    | none =>
      rw [extract_single_roi_no_tess (imageOps rect txt) cv img name cfg
        cx1 cy1 cx2 cy2 hc hx hy hocr]
      exact ⟨_, rfl, rfl, rfl, hw', hh'⟩
    | some t =>
      cases hoc : runOcr cv t cfg.ocr_type
          ((imageOps rect txt).slice img cy1.toNat cy2.toNat cx1.toNat
            cx2.toNat) with
      | ok text =>
        rw [extract_single_roi_ocr_ok (imageOps rect txt) cv t img name cfg
          cx1 cy1 cx2 cy2 text hc hx hy hocr hoc]
        exact ⟨_, rfl, rfl, rfl, hw', hh'⟩
      | error e =>
        rw [extract_single_roi_ocr_err (imageOps rect txt) cv t img name cfg
          cx1 cy1 cx2 cy2 e hc hx hy hocr hoc]
        exact ⟨_, rfl, rfl, rfl, hw', hh'⟩

/-- C1 witness: on the 100×50 test image, the region (2,3)-(12,13) with OCR
off yields a result of width 10 and height 10, and the crop is 10×10. -/
theorem extract_single_roi_valid_dims_witness :
    ∃ r, extract_single_roi idOps idCv none testImage "m"
        { x1 := 2, y1 := 3, x2 := 12, y2 := 13 } = some r
      ∧ r.width = 12 - 2 ∧ r.height = 13 - 3
      ∧ (imageSlice testImage (Int.toNat 3) (Int.toNat 13) (Int.toNat 2)
          (Int.toNat 12)).w = (12 - 2 : Int).toNat
      ∧ (imageSlice testImage (Int.toNat 3) (Int.toNat 13) (Int.toNat 2)
          (Int.toNat 12)).h = (13 - 3 : Int).toNat :=
  extract_single_roi_valid_dims (fun d _ _ _ => d) (fun d _ _ _ => d) idCv
    none testImage "m" { x1 := 2, y1 := 3, x2 := 12, y2 := 13 }
    2 3 12 13 (by decide) (by decide) (by decide) (by decide) (by decide)
    (by decide) (by decide)

/-- C10: every result `extract_single_roi` actually returns reports
coordinates with `0 ≤ x1 < x2 ≤ W` and `0 ≤ y1 < y2 ≤ H`, and strictly
positive width and height equal to `x2 - x1` and `y2 - y1`. -/
theorem roi_result_bounds {Img : Type} (ops : ImgOps Img) (cv : Cv Img)
    (tess : Option (Pytesseract Img)) (img : Img) (name : String)
    (cfg : RoiConfig) (r : RoiResult)
    (hr : extract_single_roi ops cv tess img name cfg = some r) :
    0 ≤ r.x1 ∧ r.x1 < r.x2 ∧ r.x2 ≤ ((ops.shape img).2 : Int) ∧
    0 ≤ r.y1 ∧ r.y1 < r.y2 ∧ r.y2 ≤ ((ops.shape img).1 : Int) ∧
    r.width = r.x2 - r.x1 ∧ 0 < r.width ∧
    r.height = r.y2 - r.y1 ∧ 0 < r.height := by
  obtain ⟨h1, h2, h3, h4, h5, h6, h7, h8⟩ :=
    extract_single_roi_some_fields ops cv tess img name cfg r hr
  refine ⟨?_, h7, ?_, ?_, h8, ?_, h5, ?_, h6, ?_⟩ <;> omega

/-- C10 witness: the region (-5,-5)-(10,10) on the 100×50 test image clamps
to (0,0)-(10,10); the returned result satisfies the bounds invariant. -/
theorem roi_result_bounds_witness :
    0 ≤ ({ name := "m", x1 := 0, y1 := 0, x2 := 10, y2 := 10, width := 10,
           height := 10 } : RoiResult).x1 ∧
    ({ name := "m", x1 := 0, y1 := 0, x2 := 10, y2 := 10, width := 10,
       height := 10 } : RoiResult).x1 <
      ({ name := "m", x1 := 0, y1 := 0, x2 := 10, y2 := 10, width := 10,
         height := 10 } : RoiResult).x2 ∧
    ({ name := "m", x1 := 0, y1 := 0, x2 := 10, y2 := 10, width := 10,
       height := 10 } : RoiResult).x2 ≤ ((idOps.shape testImage).2 : Int) ∧
    0 ≤ ({ name := "m", x1 := 0, y1 := 0, x2 := 10, y2 := 10, width := 10,
           height := 10 } : RoiResult).y1 ∧
    ({ name := "m", x1 := 0, y1 := 0, x2 := 10, y2 := 10, width := 10,
       height := 10 } : RoiResult).y1 <
      ({ name := "m", x1 := 0, y1 := 0, x2 := 10, y2 := 10, width := 10,
         height := 10 } : RoiResult).y2 ∧
    ({ name := "m", x1 := 0, y1 := 0, x2 := 10, y2 := 10, width := 10,
       height := 10 } : RoiResult).y2 ≤ ((idOps.shape testImage).1 : Int) ∧
    ({ name := "m", x1 := 0, y1 := 0, x2 := 10, y2 := 10, width := 10,
       height := 10 } : RoiResult).width =
      ({ name := "m", x1 := 0, y1 := 0, x2 := 10, y2 := 10, width := 10,
         height := 10 } : RoiResult).x2 -
      ({ name := "m", x1 := 0, y1 := 0, x2 := 10, y2 := 10, width := 10,
         height := 10 } : RoiResult).x1 ∧
    0 < ({ name := "m", x1 := 0, y1 := 0, x2 := 10, y2 := 10, width := 10,
           height := 10 } : RoiResult).width ∧
    ({ name := "m", x1 := 0, y1 := 0, x2 := 10, y2 := 10, width := 10,
       height := 10 } : RoiResult).height =
      ({ name := "m", x1 := 0, y1 := 0, x2 := 10, y2 := 10, width := 10,
         height := 10 } : RoiResult).y2 -
      ({ name := "m", x1 := 0, y1 := 0, x2 := 10, y2 := 10, width := 10,
         height := 10 } : RoiResult).y1 ∧
    0 < ({ name := "m", x1 := 0, y1 := 0, x2 := 10, y2 := 10, width := 10,
           height := 10 } : RoiResult).height :=
  roi_result_bounds idOps idCv none testImage "m"
    { x1 := -5, y1 := -5, x2 := 10, y2 := 10 }
    { name := "m", x1 := 0, y1 := 0, x2 := 10, y2 := 10, width := 10,
      height := 10 } (by decide)

/-- C3: for a region whose rectangle is valid after clamping, a result is
returned; when OCR was requested it carries exactly one of a recognized
`value` or an `error` marker (the fixed error marker and no value when the
recognition engine is unavailable), and when OCR was not requested it
carries neither. -/
theorem ocr_value_error_exclusive {Img : Type} (ops : ImgOps Img)
    (cv : Cv Img) (tess : Option (Pytesseract Img)) (img : Img)
    (name : String) (cfg : RoiConfig) (cx1 cy1 cx2 cy2 : Int)
    (hc : clampRect ((ops.shape img).2 : Int) ((ops.shape img).1 : Int)
            cfg.x1 cfg.y1 cfg.x2 cfg.y2 = (cx1, cy1, cx2, cy2))
    (hx : cx1 < cx2) (hy : cy1 < cy2) :
    ∃ r, extract_single_roi ops cv tess img name cfg = some r ∧
      (cfg.ocr = true →
        ((∃ v, r.value = some v) ∧ r.error = none) ∨
        (r.value = none ∧ ∃ e, r.error = some e)) ∧
      (cfg.ocr = true → tess = none →
        r.value = none ∧ r.error = some "pytesseract not installed") ∧
      (cfg.ocr = false → r.value = none ∧ r.error = none) := by
  cases hocr : cfg.ocr with
  | false =>
    rw [extract_single_roi_no_ocr ops cv tess img name cfg
      cx1 cy1 cx2 cy2 hc hx hy hocr]
    exact ⟨_, rfl, by simp [hocr], by simp [hocr], fun _ => ⟨rfl, rfl⟩⟩
  | true =>
    cases tess with
    | none =>
      rw [extract_single_roi_no_tess ops cv img name cfg
        cx1 cy1 cx2 cy2 hc hx hy hocr]
      exact ⟨_, rfl, fun _ => Or.inr ⟨rfl, _, rfl⟩, fun _ _ => ⟨rfl, rfl⟩,
        by simp [hocr]⟩
    | some t =>
      cases hoc : runOcr cv t cfg.ocr_type
          (ops.slice img cy1.toNat cy2.toNat cx1.toNat cx2.toNat) with
      | ok text =>
        rw [extract_single_roi_ocr_ok ops cv t img name cfg
          cx1 cy1 cx2 cy2 text hc hx hy hocr hoc]
        exact ⟨_, rfl, fun _ => Or.inl ⟨⟨_, rfl⟩, rfl⟩, by simp, by simp [hocr]⟩
      | error e =>
        rw [extract_single_roi_ocr_err ops cv t img name cfg
          cx1 cy1 cx2 cy2 e hc hx hy hocr hoc]
        exact ⟨_, rfl, fun _ => Or.inr ⟨rfl, _, rfl⟩, by simp, by simp [hocr]⟩

/-- C3 witness: on the 100×50 test image with OCR requested and the engine
unavailable, the region (0,0)-(8,8) yields an error marker and no value. -/
theorem ocr_value_error_exclusive_witness :
    ∃ r, extract_single_roi idOps idCv none testImage "m"
        { x1 := 0, y1 := 0, x2 := 8, y2 := 8, ocr := true } = some r ∧
      (({ x1 := 0, y1 := 0, x2 := 8, y2 := 8, ocr := true } :
          RoiConfig).ocr = true →
        ((∃ v, r.value = some v) ∧ r.error = none) ∨
        (r.value = none ∧ ∃ e, r.error = some e)) ∧
      (({ x1 := 0, y1 := 0, x2 := 8, y2 := 8, ocr := true } :
          RoiConfig).ocr = true → (none : Option (Pytesseract Image)) = none →
        r.value = none ∧ r.error = some "pytesseract not installed") ∧
      (({ x1 := 0, y1 := 0, x2 := 8, y2 := 8, ocr := true } :
          RoiConfig).ocr = false → r.value = none ∧ r.error = none) :=
  ocr_value_error_exclusive idOps idCv none testImage "m"
    { x1 := 0, y1 := 0, x2 := 8, y2 := 8, ocr := true } 0 0 8 8
    (by decide) (by decide) (by decide)

/-- The `rois` map of the result dict: each configured region contributes
exactly its own `extract_single_roi` outcome on the loaded image. -/
theorem extract_all_rois_loaded_rois {Img : Type} (ops : ImgOps Img)
    (cv : Cv Img) (tess : Option (Pytesseract Img))
    (rois : List (String × RoiConfig)) (img : Img) :
    (extract_all_rois_loaded ops cv tess rois img).1.rois
      = rois.filterMap (fun p =>
          (extract_single_roi ops cv tess img p.1 p.2).map
            (fun r => (p.1, r))) := by
  simp only [extract_all_rois_loaded]
  rw [roiLoop_results]
  rfl

/-- C2: a region whose rectangle is degenerate after clamping produces no
result: `extract_single_roi` returns `None` for it, the caller's result map
omits that region's name entirely (never holding a partial or zero-size
crop), and every other configured region still receives exactly its own
independent result. -/
theorem degenerate_region_omitted {Img : Type} (ops : ImgOps Img)
    (cv : Cv Img) (tess : Option (Pytesseract Img))
    (rois : List (String × RoiConfig)) (img : Img) (name : String)
    (cfg : RoiConfig) (cx1 cy1 cx2 cy2 : Int)
    (hnd : (rois.map Prod.fst).Nodup) (hmem : (name, cfg) ∈ rois)
    (hc : clampRect ((ops.shape img).2 : Int) ((ops.shape img).1 : Int)
            cfg.x1 cfg.y1 cfg.x2 cfg.y2 = (cx1, cy1, cx2, cy2))
    (hdeg : cx1 ≥ cx2 ∨ cy1 ≥ cy2) :
    extract_single_roi ops cv tess img name cfg = none ∧
    (extract_all_rois_loaded ops cv tess rois img).1.rois.lookup name
      = none ∧
    (∀ n' c', (n', c') ∈ rois → n' ≠ name →
      (extract_all_rois_loaded ops cv tess rois img).1.rois.lookup n'
        = extract_single_roi ops cv tess img n' c') := by
  have hnone : extract_single_roi ops cv tess img name cfg = none :=
    extract_single_roi_degenerate ops cv tess img name cfg cx1 cy1 cx2 cy2
      hc hdeg
  refine ⟨hnone, ?_, ?_⟩
  · rw [extract_all_rois_loaded_rois]
    exact (lookup_filterMap_eq _ name cfg rois hnd hmem).trans hnone
  · intro n' c' hmem' _
    rw [extract_all_rois_loaded_rois]
    exact lookup_filterMap_eq _ n' c' rois hnd hmem'

/-- C2 witness: with a degenerate region `bad` ((200,0)-(300,10) clamps to
x1 = 200 ≥ x2 = 100 on the 100×50 image) and a valid region `good`, the
result map omits `bad` and `good` gets its own result. -/
theorem degenerate_region_omitted_witness :
    extract_single_roi idOps idCv none testImage "bad"
        { x1 := 200, y1 := 0, x2 := 300, y2 := 10 } = none ∧
    (extract_all_rois_loaded idOps idCv none
        [("bad", { x1 := 200, y1 := 0, x2 := 300, y2 := 10 }),
         ("good", { x1 := 0, y1 := 0, x2 := 5, y2 := 5 })]
        testImage).1.rois.lookup "bad" = none ∧
    (∀ n' c',
      (n', c') ∈
        [("bad", ({ x1 := 200, y1 := 0, x2 := 300, y2 := 10 } : RoiConfig)),
         ("good", { x1 := 0, y1 := 0, x2 := 5, y2 := 5 })] → n' ≠ "bad" →
      (extract_all_rois_loaded idOps idCv none
          [("bad", { x1 := 200, y1 := 0, x2 := 300, y2 := 10 }),
           ("good", { x1 := 0, y1 := 0, x2 := 5, y2 := 5 })]
          testImage).1.rois.lookup n'
        = extract_single_roi idOps idCv none testImage n' c') :=
  degenerate_region_omitted idOps idCv none
    [("bad", { x1 := 200, y1 := 0, x2 := 300, y2 := 10 }),
     ("good", { x1 := 0, y1 := 0, x2 := 5, y2 := 5 })]
    testImage "bad" { x1 := 200, y1 := 0, x2 := 300, y2 := 10 }
    200 0 100 10 (by decide) (by decide) (by decide) (by decide)

/-- C4: when the recognition call for one region raises, the exception is
caught and surfaced as the `error` marker on that region's result only (the
result still present, with no `value`), and every other configured region
still receives exactly its own independent result — one region's OCR failure
never aborts the extraction of the others. -/
theorem ocr_failure_isolated {Img : Type} (ops : ImgOps Img) (cv : Cv Img)
    (t : Pytesseract Img) (rois : List (String × RoiConfig)) (img : Img)
    (name : String) (cfg : RoiConfig) (cx1 cy1 cx2 cy2 : Int) (msg : String)
    (hnd : (rois.map Prod.fst).Nodup) (hmem : (name, cfg) ∈ rois)
    (hc : clampRect ((ops.shape img).2 : Int) ((ops.shape img).1 : Int)
            cfg.x1 cfg.y1 cfg.x2 cfg.y2 = (cx1, cy1, cx2, cy2))
    (hx : cx1 < cx2) (hy : cy1 < cy2) (hocr : cfg.ocr = true)
    (hfail : runOcr cv t cfg.ocr_type
        (ops.slice img cy1.toNat cy2.toNat cx1.toNat cx2.toNat)
        = .error msg) :
    (extract_all_rois_loaded ops cv (some t) rois img).1.rois.lookup name
      = some { name := name, x1 := cx1, y1 := cy1, x2 := cx2, y2 := cy2,
               width := cx2 - cx1, height := cy2 - cy1, value := none,
               error := some msg } ∧
    (∀ n' c', (n', c') ∈ rois → n' ≠ name →
      (extract_all_rois_loaded ops cv (some t) rois img).1.rois.lookup n'
        = extract_single_roi ops cv (some t) img n' c') := by
  have hone := extract_single_roi_ocr_err ops cv t img name cfg
    cx1 cy1 cx2 cy2 msg hc hx hy hocr hfail
  constructor
  · rw [extract_all_rois_loaded_rois]
    exact (lookup_filterMap_eq _ name cfg rois hnd hmem).trans hone
  · intro n' c' hmem' _
    rw [extract_all_rois_loaded_rois]
    exact lookup_filterMap_eq _ n' c' rois hnd hmem'

/-- C4 witness: region `a` (valid, OCR on) with an engine whose call raises
`boom` gets the error marker; region `b` still gets its own result. -/
theorem ocr_failure_isolated_witness :
    (extract_all_rois_loaded idOps idCv (some (failTess "boom"))
        [("a", { x1 := 0, y1 := 0, x2 := 7, y2 := 7, ocr := true }),
         ("b", { x1 := 0, y1 := 0, x2 := 5, y2 := 5 })]
        testImage).1.rois.lookup "a"
      = some { name := "a", x1 := 0, y1 := 0, x2 := 7, y2 := 7, width := 7,
               height := 7, value := none, error := some "boom" } ∧
    (∀ n' c',
      (n', c') ∈
        [("a", ({ x1 := 0, y1 := 0, x2 := 7, y2 := 7, ocr := true } :
            RoiConfig)),
         ("b", { x1 := 0, y1 := 0, x2 := 5, y2 := 5 })] → n' ≠ "a" →
      (extract_all_rois_loaded idOps idCv (some (failTess "boom"))
          [("a", { x1 := 0, y1 := 0, x2 := 7, y2 := 7, ocr := true }),
           ("b", { x1 := 0, y1 := 0, x2 := 5, y2 := 5 })]
          testImage).1.rois.lookup n'
        = extract_single_roi idOps idCv (some (failTess "boom")) testImage
            n' c') :=
  ocr_failure_isolated idOps idCv (failTess "boom")
    [("a", { x1 := 0, y1 := 0, x2 := 7, y2 := 7, ocr := true }),
     ("b", { x1 := 0, y1 := 0, x2 := 5, y2 := 5 })]
    testImage "a" { x1 := 0, y1 := 0, x2 := 7, y2 := 7, ocr := true }
    0 0 7 7 "boom" (by decide) (by decide) (by decide) (by decide)
    (by decide) (by decide) rfl

/-- C8: the source image is never mutated by any analysis stage: cropping
and OCR preprocessing only read it, and the rectangle and label annotations
are drawn only on the separate `img.copy()` buffer — in the final buffer
state the source buffer equals the input image. -/
theorem source_image_not_mutated {Img : Type} (ops : ImgOps Img)
    (cv : Cv Img) (tess : Option (Pytesseract Img))
    (rois : List (String × RoiConfig)) (img : Img) :
    (extract_all_rois_loaded ops cv tess rois img).2.img = img := by
  simp only [extract_all_rois_loaded]
  exact roiLoop_img ops cv tess rois 0 _ []

/-- C5 counterexample: with a digits-mode region whose recognition
collaborator returns `"3/1O"`, the stored value is `"3/1O"`: the caller
applies no post-processing step discarding characters outside
`0123456789/` (the whitelist is passed to the collaborator as
configuration), so the claimed filtered value `"3/1"` is not stored. -/
theorem digits_no_postfilter_counterexample :
    extract_single_roi idOps idCv (some (constTess "3/1O")) testImage
        "health"
        { x1 := 0, y1 := 0, x2 := 10, y2 := 10, ocr := true,
          ocr_type := "digits" }
      = some { name := "health", x1 := 0, y1 := 0, x2 := 10, y2 := 10,
               width := 10, height := 10, value := some "3/1O",
               error := none } ∧
    (some "3/1O" : Option String) ≠ some "3/1" := by
  exact ⟨by decide, by decide⟩

/-- C5 amended: the digit restriction of digits-mode regions is delegated to
the recognition collaborator through the whitelist option in the `config`
string of the call (`--psm 7 -c tessedit_char_whitelist=0123456789/`); the
caller applies no character filtering of its own to the collaborator's raw
output, only Python's `str.strip()`: whatever `raw` the collaborator
returns, the stored value is exactly `pyStrip raw` (so `"3/10"` stays
`"3/10"`, but `"3/1O"` stays `"3/1O"` as well). -/
theorem digits_value_is_stripped_raw {Img : Type} (ops : ImgOps Img)
    (cv : Cv Img) (f : Img → String → String → Except String String)
    (img : Img) (name : String) (cfg : RoiConfig) (cx1 cy1 cx2 cy2 : Int)
    (raw : String)
    (hc : clampRect ((ops.shape img).2 : Int) ((ops.shape img).1 : Int)
            cfg.x1 cfg.y1 cfg.x2 cfg.y2 = (cx1, cy1, cx2, cy2))
    (hx : cx1 < cx2) (hy : cy1 < cy2)
    (hocr : cfg.ocr = true) (hdig : cfg.ocr_type = "digits")
    (hret : f (ocrPreprocess cv
        (ops.slice img cy1.toNat cy2.toNat cx1.toNat cx2.toNat))
        "por" digitsConfig = .ok raw) :
    extract_single_roi ops cv (some ⟨f⟩) img name cfg =
      some { name := name, x1 := cx1, y1 := cy1, x2 := cx2, y2 := cy2,
             width := cx2 - cx1, height := cy2 - cy1,
             value := some (pyStrip raw), error := none } := by
  apply extract_single_roi_ocr_ok ops cv ⟨f⟩ img name cfg cx1 cy1 cx2 cy2
    raw hc hx hy hocr
  simp only [runOcr, hdig, if_pos]
  exact hret

/-- C5 amended witness: a collaborator returning `" 42/3 "` on a digits-mode
region stores the stripped `"42/3"`. -/
theorem digits_value_is_stripped_raw_witness :
    extract_single_roi idOps idCv
        (some ⟨fun _ _ _ => .ok " 42/3 "⟩) testImage "m"
        { x1 := 0, y1 := 0, x2 := 10, y2 := 10, ocr := true,
          ocr_type := "digits" } =
      some { name := "m", x1 := 0, y1 := 0, x2 := 10, y2 := 10, width := 10,
             height := 10, value := some (pyStrip " 42/3 "), error := none } :=
  digits_value_is_stripped_raw idOps idCv (fun _ _ _ => .ok " 42/3 ")
    testImage "m"
    { x1 := 0, y1 := 0, x2 := 10, y2 := 10, ocr := true,
      ocr_type := "digits" }
    0 0 10 10 " 42/3 " (by decide) (by decide) (by decide) (by decide)
    (by decide) rfl

/-- C6 counterexample: on the instrumented image representation, the
preprocessing actually applied to a crop is 4x upscale, grayscale, denoise,
CLAHE, Otsu threshold, morphological close; no HSV color-band segmentation
step (saturation ≤ 40, value ≥ 180) and no foreground-masking step occur, so
the chain differs from the spec's claimed
colorMask → maskApply → intensity → Otsu pipeline. -/
theorem ocr_preprocess_no_colormask_counterexample :
    ocrPreprocess cvTrace []
      = [.resize4, .cvtGray, .denoise, .clahe, .otsu, .morphClose] ∧
    CvStep.colorMask ∉ ocrPreprocess cvTrace [] ∧
    CvStep.maskApply ∉ ocrPreprocess cvTrace [] ∧
    specOcrPreprocess specCvTrace []
      = [.colorMask, .maskApply, .cvtGray, .otsu] ∧
    ocrPreprocess cvTrace [] ≠ specOcrPreprocess specCvTrace [] :=
  ⟨rfl, by decide, by decide, rfl, by decide⟩

/-- C6 amended: for every cropped region with OCR requested, the image
passed to recognition is the crop put through, in order: 4x cubic upscale,
grayscale conversion, non-local-means denoising, CLAHE contrast
enhancement, automatic histogram-based (Otsu) binarization, and a 2×2
morphological close — an automatic threshold is applied, but no
color-band segmentation or foreground masking step.  The second conjunct
witnesses this end-to-end: with a recognition collaborator that reports
the provenance of the image it receives, the stored value lists exactly
those operations after the crop. -/
theorem ocr_preprocess_chain :
    (∀ t : List CvStep, ocrPreprocess cvTrace t
      = t ++ [.resize4, .cvtGray, .denoise, .clahe, .otsu, .morphClose]) ∧
    extract_single_roi traceOps cvTrace (some echoTess) [] "mana"
        { x1 := 0, y1 := 0, x2 := 1, y2 := 1, ocr := true } =
      some { name := "mana", x1 := 0, y1 := 0, x2 := 1, y2 := 1, width := 1,
             height := 1,
             value := some
               "slice,resize4,cvtGray,denoise,clahe,otsu,morphClose",
             error := none } := by
  constructor
  · intro t
    simp [ocrPreprocess, cvTrace, List.append_assoc]
  · decide

/-- C7 counterexample: for a successfully loaded 1920×1080 image processed
with the source's configured `ROIS`, the top-level keys of the structured
result are exactly `image_size`, `debug_image` and `rois`: no ordered
card-box list and no card count are exposed. -/
theorem result_exposes_no_cards_counterexample :
    (extract_all_rois_loaded idOps idCv none ROIS bigImage).1.toDict.topKeys
      = ["image_size", "debug_image", "rois"] ∧
    "cards" ∉
      (extract_all_rois_loaded idOps idCv none ROIS
        bigImage).1.toDict.topKeys ∧
    "card_count" ∉
      (extract_all_rois_loaded idOps idCv none ROIS
        bigImage).1.toDict.topKeys ∧
    "card_boxes" ∉
      (extract_all_rois_loaded idOps idCv none ROIS
        bigImage).1.toDict.topKeys ∧
    "count" ∉
      (extract_all_rois_loaded idOps idCv none ROIS
        bigImage).1.toDict.topKeys :=
  ⟨rfl, by decide, by decide, by decide, by decide⟩

/-- C7 amended: for every successfully loaded input image the structured
result exposes the image dimensions (`image_size` as width and height), the
debug-image path, and the mapping from region name to result — one entry per
region whose extraction produced a result, in declaration order — and
nothing else: its top-level keys are exactly `image_size`, `debug_image`
and `rois`, with no card-box list or card count. -/
theorem result_shape {Img : Type} (ops : ImgOps Img) (cv : Cv Img)
    (tess : Option (Pytesseract Img)) (rois : List (String × RoiConfig))
    (img : Img) :
    (extract_all_rois_loaded ops cv tess rois img).1.image_size
        = ((ops.shape img).2, (ops.shape img).1) ∧
    (extract_all_rois_loaded ops cv tess rois img).1.debug_image
        = "roi_debug.png" ∧
    (extract_all_rois_loaded ops cv tess rois img).1.rois
        = rois.filterMap (fun p =>
            (extract_single_roi ops cv tess img p.1 p.2).map
              (fun r => (p.1, r))) ∧
    (extract_all_rois_loaded ops cv tess rois img).1.toDict.topKeys
        = ["image_size", "debug_image", "rois"] ∧
    extract_all_rois ops cv tess rois (some img)
        = .ok (extract_all_rois_loaded ops cv tess rois img) :=
  ⟨rfl, rfl, extract_all_rois_loaded_rois ops cv tess rois img, rfl, rfl⟩

end ExtractRoi
